import Mathlib

/-!
Shallow embedding of the AppSync custom authorizer of justchecklists
(amplify/data/custom-authorizer.ts), with proofs of the spec claims.

Modelling conventions:
- DynamoDB table contents are a `Store` of point-lookup functions; a record
  that is absent and a record whose consulted field is missing behave
  identically in the source (both fail the JS truthiness test), so a lookup
  yields the consulted field directly as an `Option String`.
- JavaScript falsiness of strings (undefined or "") is modelled by `jsStr`:
  a missing value or the empty string count as falsy.
- A thrown JS exception (the TypeError from `ROLE_PERMISSIONS[role]` being
  undefined, or the `throw new Error` in table discovery) is `Except.error`;
  normal returns are `Except.ok`.
- Table discovery (`getTableNames`) is abstracted to a boolean `tablesOk`:
  `true` means the four tables resolve, `false` means discovery throws
  `Error('Checklist tables not found')`.
- JWT base64/JSON decoding is abstracted: the handler receives the decoded
  payload as `Option JWTPayload` (`none` = `decodeJWT` returned null), and
  the root-field regex result as `Option String`.
-/

namespace JustChecklists

/-- Permission vocabulary (custom-authorizer.ts line 93). -/
inductive Permission where
  | read | create | update | delete | subscribe | share
  deriving DecidableEq, Repr

/-- Role enum (custom-authorizer.ts line 92). -/
inductive Role where
  | OWNER | EDITOR | VIEWER
  deriving DecidableEq, Repr

/-- ROLE_PERMISSIONS table (custom-authorizer.ts lines 95-99). -/
def ROLE_PERMISSIONS : Role → List Permission
  | .OWNER  => [.read, .create, .update, .delete, .subscribe, .share]
  | .EDITOR => [.read, .create, .update, .subscribe]
  | .VIEWER => [.read, .subscribe]

/-- Interpreting a raw wire string as a key of ROLE_PERMISSIONS; `none`
models `ROLE_PERMISSIONS[role]` being `undefined` in JS. -/
def parseRole (s : String) : Option Role :=
  if s == "OWNER" then some .OWNER
  else if s == "EDITOR" then some .EDITOR
  else if s == "VIEWER" then some .VIEWER
  else none

/-- A Checklist record, restricted to the fields the authorizer consults. -/
structure Checklist where
  author : String
  isPublic : Bool
  deriving DecidableEq, Repr

/-- Contents of the four DynamoDB tables, as point lookups.
`shareRole cid uid` is the `role` attribute of the ChecklistShare row keyed
by (checklistId, userId); `some ""` stands for any falsy stored value.
`sectionChecklistId` / `itemSectionId` give the parent-reference attribute
of the Section / Item row (absent row and absent attribute coincide). -/
structure Store where
  checklists : String → Option Checklist
  shareRole : String → String → Option String
  sectionChecklistId : String → Option String
  itemSectionId : String → Option String

/-- JS `String.prototype.startsWith`, as a character-list prefix test
(equivalent on the ASCII operation names involved). -/
def strStartsWith (s p : String) : Bool :=
  p.data.isPrefixOf s.data

/-- JS truthiness for an optional string value: undefined and "" are falsy. -/
def jsStr : Option String → Option String
  | none => none
  | some s => if s == "" then none else some s

/-- JS `a || b` over optional string values. -/
def jsOrStr (a b : Option String) : Option String :=
  match jsStr a with
  | some x => some x
  | none => b

/-- Verdict record of checkChecklistAccess (custom-authorizer.ts line 131):
`{ authorized, reason, role? }`. -/
structure AccessResult where
  authorized : Bool
  reason : String
  role : Option Role
  deriving DecidableEq, Repr

/-- Role resolution inside checkChecklistAccess (lines 151-167): the author
is OWNER; otherwise the raw `role` attribute of the share row, if any. -/
def resolveRawRole (s : Store) (checklistId userId : String) (checklist : Checklist) : Option String :=
  if checklist.author == userId then some "OWNER"
  else s.shareRole checklistId userId

/-- checkChecklistAccess (custom-authorizer.ts lines 127-184).
`Except.error` models the TypeError thrown when the share row stores a raw
role string that is truthy but not a ROLE_PERMISSIONS key (line 179:
`ROLE_PERMISSIONS[role].includes` on `undefined`). -/
def checkChecklistAccess (s : Store) (checklistId userId : String)
    (requiredPermission : Permission) : Except String AccessResult :=
  match s.checklists checklistId with
  | none => .ok ⟨false, "checklist_not_found", none⟩
  | some checklist =>
    if checklist.isPublic && (requiredPermission == .read || requiredPermission == .subscribe) then
      .ok ⟨true, "public_checklist", none⟩
    else
      match jsStr (resolveRawRole s checklistId userId checklist) with
      | none => .ok ⟨false, "no_role", none⟩
      | some raw =>
        if requiredPermission == .share && raw != "OWNER" then
          .ok ⟨false, "share_requires_owner", none⟩
        else
          match parseRole raw with
          | none => .error "TypeError: ROLE_PERMISSIONS[role] is undefined"
          | some role =>
            if (ROLE_PERMISSIONS role).contains requiredPermission then
              .ok ⟨true, "authorized", some role⟩
            else
              .ok ⟨false, "permission_denied", some role⟩

/-- The GraphQL variables fields the handler reads (nested paths flattened;
`none` = path absent). -/
structure Variables where
  id : Option String := none
  userId : Option String := none
  checklistId : Option String := none
  inputId : Option String := none
  inputChecklistId : Option String := none
  inputSectionId : Option String := none
  inputUserId : Option String := none
  inputRole : Option String := none
  filterAuthorEq : Option String := none
  filterIsPublicEq : Option Bool := none
  filterChecklistIdEq : Option String := none
  filterSectionIdEq : Option String := none
  filterUserIdEq : Option String := none
  filterShareTokenEq : Option String := none

/-- Decoded JWT payload fields consulted for the user id (lines 198-201). -/
structure JWTPayload where
  cognitoUsername : Option String := none
  username : Option String := none
  sub : Option String := none

/-- `decoded['cognito:username'] || decoded.username || decoded.sub`
with JS falsiness (lines 198-201). -/
def jwtUserId (p : JWTPayload) : Option String :=
  match jsStr p.cognitoUsername with
  | some u => some u
  | none =>
    match jsStr p.username with
    | some u => some u
    | none => jsStr p.sub

/-- What a branch of the handler body produces: the returned `isAuthorized`
plus the reason string passed to logAuth on that return path. -/
structure Decision where
  isAuthorized : Bool
  reason : String
  deriving DecidableEq, Repr

/-- Lifting a checkChecklistAccess result to a handler branch result
(`return { isAuthorized: result.authorized }` after logging `...result`). -/
def delegate (r : Except String AccessResult) : Except String Decision :=
  r.map fun a => ⟨a.authorized, a.reason⟩

/-- The body of the handler's `try` block (custom-authorizer.ts lines
226-604): `getTableNames()` first (throws when `tablesOk = false`), then
the fieldName dispatch chain in source order. -/
def handlerTry (tablesOk : Bool) (s : Store) (userId : String)
    (fieldName : String) (v : Variables) : Except String Decision :=
  if !tablesOk then .error "Checklist tables not found"
  else if strStartsWith fieldName "onCreate" || strStartsWith fieldName "onUpdate"
      || strStartsWith fieldName "onDelete" then
    .ok ⟨true, "subscription"⟩
  else if fieldName == "listChecklists" then
    if v.filterAuthorEq == some userId || v.filterIsPublicEq == some true then
      .ok ⟨true, "scoped_list"⟩
    else
      .ok ⟨false, "unscoped_list"⟩
  else if fieldName == "createChecklist" then
    .ok ⟨true, "create_checklist"⟩
  else if fieldName == "getChecklist" then
    match jsStr v.id with
    | none => .ok ⟨false, "missing_id"⟩
    | some checklistId => delegate (checkChecklistAccess s checklistId userId .read)
  else if fieldName == "updateChecklist" then
    match jsStr v.inputId with
    | none => .ok ⟨false, "missing_id"⟩
    | some checklistId => delegate (checkChecklistAccess s checklistId userId .update)
  else if fieldName == "deleteChecklist" then
    match jsStr v.inputId with
    | none => .ok ⟨false, "missing_id"⟩
    | some checklistId => delegate (checkChecklistAccess s checklistId userId .delete)
  else if fieldName == "listChecklistSections" then
    match jsStr v.filterChecklistIdEq with
    | none => .ok ⟨false, "missing_checklistId"⟩
    | some checklistId => delegate (checkChecklistAccess s checklistId userId .read)
  else if fieldName == "createChecklistSection" then
    match jsStr v.inputChecklistId with
    | none => .ok ⟨false, "missing_checklistId"⟩
    | some checklistId => delegate (checkChecklistAccess s checklistId userId .create)
  else if fieldName == "updateChecklistSection" then
    match jsStr v.inputId with
    | none => .ok ⟨false, "missing_section_id"⟩
    | some sectionId =>
      match jsStr (s.sectionChecklistId sectionId) with
      | none => .ok ⟨false, "section_not_found"⟩
      | some checklistId => delegate (checkChecklistAccess s checklistId userId .update)
  else if fieldName == "deleteChecklistSection" then
    match jsStr v.inputId with
    | none => .ok ⟨false, "missing_section_id"⟩
    | some sectionId =>
      match jsStr (s.sectionChecklistId sectionId) with
      | none => .ok ⟨false, "section_not_found"⟩
      | some checklistId => delegate (checkChecklistAccess s checklistId userId .delete)
  else if fieldName == "listChecklistItems" then
    match jsStr v.filterSectionIdEq with
    | none => .ok ⟨false, "missing_sectionId"⟩
    | some sectionId =>
      match jsStr (s.sectionChecklistId sectionId) with
      | none => .ok ⟨false, "section_not_found"⟩
      | some checklistId => delegate (checkChecklistAccess s checklistId userId .read)
  else if fieldName == "createChecklistItem" then
    match jsStr v.inputSectionId with
    | none => .ok ⟨false, "missing_sectionId"⟩
    | some sectionId =>
      match jsStr (s.sectionChecklistId sectionId) with
      | none => .ok ⟨false, "section_not_found"⟩
      | some checklistId => delegate (checkChecklistAccess s checklistId userId .create)
  else if fieldName == "updateChecklistItem" then
    match jsStr v.inputId with
    | none => .ok ⟨false, "missing_item_id"⟩
    | some itemId =>
      match jsStr (s.itemSectionId itemId) with
      | none => .ok ⟨false, "item_not_found"⟩
      | some sectionId =>
        match jsStr (s.sectionChecklistId sectionId) with
        | none => .ok ⟨false, "section_not_found"⟩
        | some checklistId => delegate (checkChecklistAccess s checklistId userId .update)
  else if fieldName == "deleteChecklistItem" then
    match jsStr v.inputId with
    | none => .ok ⟨false, "missing_item_id"⟩
    | some itemId =>
      match jsStr (s.itemSectionId itemId) with
      | none => .ok ⟨false, "item_not_found"⟩
      | some sectionId =>
        match jsStr (s.sectionChecklistId sectionId) with
        | none => .ok ⟨false, "section_not_found"⟩
        | some checklistId => delegate (checkChecklistAccess s checklistId userId .delete)
  else if strStartsWith fieldName "listChecklistShare" then
    if v.userId == some userId || v.filterUserIdEq == some userId
        || (jsStr v.filterShareTokenEq).isSome then
      .ok ⟨true, "share_list_own"⟩
    else
      match jsStr v.filterChecklistIdEq with
      | none => .ok ⟨false, "invalid_share_list"⟩
      | some checklistId =>
        match s.checklists checklistId with
        | none => .ok ⟨false, "invalid_share_list"⟩
        | some c =>
          if c.author == userId then .ok ⟨true, "owner_listing_shares"⟩
          else .ok ⟨false, "invalid_share_list"⟩
  else if fieldName == "getChecklistShare" then
    if v.userId == some userId then .ok ⟨true, "get_own_share"⟩
    else .ok ⟨false, "cannot_get_other_share"⟩
  else if fieldName == "createChecklistShare" then
    if v.inputUserId == some userId then .ok ⟨true, "create_own_share"⟩
    else
      match jsStr v.inputChecklistId with
      | none => .ok ⟨false, "not_authorized_to_create_share"⟩
      | some checklistId =>
        match s.checklists checklistId with
        | none => .ok ⟨false, "not_authorized_to_create_share"⟩
        | some c =>
          if c.author == userId then .ok ⟨true, "author_creating_share"⟩
          else .ok ⟨false, "not_authorized_to_create_share"⟩
  else if fieldName == "updateChecklistShare" || fieldName == "deleteChecklistShare" then
    match jsStr (jsOrStr v.checklistId v.inputChecklistId) with
    | none => .ok ⟨false, "not_authorized_to_manage_share"⟩
    | some checklistId =>
      match s.checklists checklistId with
      | none => .ok ⟨false, "not_authorized_to_manage_share"⟩
      | some c =>
        if c.author == userId then .ok ⟨true, "author_managing_share"⟩
        else .ok ⟨false, "not_authorized_to_manage_share"⟩
  else
    .ok ⟨false, "unknown_operation"⟩

/-- The full handler (custom-authorizer.ts lines 190-609): JWT decode and
user-id extraction, the no-fieldName connection allow, the `try` body, and
the catch-all that converts any thrown error into `isAuthorized: false`. -/
def handler (decoded : Option JWTPayload) (tablesOk : Bool) (s : Store)
    (fieldName : Option String) (v : Variables) : Bool :=
  match decoded with
  | none => false
  | some p =>
    match jwtUserId p with
    | none => false
    | some userId =>
      match fieldName with
      | none => true
      | some f =>
        match handlerTry tablesOk s userId f v with
        | .ok d => d.isAuthorized
        | .error _ => false

/-- A store with no records at all. -/
def emptyStore : Store :=
  ⟨fun _ => none, fun _ _ => none, fun _ => none, fun _ => none⟩

/-- A store with one public checklist "c1" authored by "alice" and an empty
share table. -/
def storePub : Store :=
  ⟨fun i => if i == "c1" then some ⟨"alice", true⟩ else none,
   fun _ _ => none, fun _ => none, fun _ => none⟩

/-- A store with one private checklist "c1" authored by "alice", a VIEWER
share for "bob" and an EDITOR share for "carol". -/
def storePriv : Store :=
  ⟨fun i => if i == "c1" then some ⟨"alice", false⟩ else none,
   fun cid u =>
     if cid == "c1" && u == "bob" then some "VIEWER"
     else if cid == "c1" && u == "carol" then some "EDITOR"
     else none,
   fun _ => none, fun _ => none⟩

/-- A store with one private checklist "c1" authored by "owner" and a share
row for "mallory" whose role attribute holds the invalid value "ADMIN". -/
def storeBadRole : Store :=
  ⟨fun i => if i == "c1" then some ⟨"owner", false⟩ else none,
   fun cid u => if cid == "c1" && u == "mallory" then some "ADMIN" else none,
   fun _ => none, fun _ => none⟩

/-- Claim C1: for a checklist with isPublic = true, checkChecklistAccess
grants read and subscribe to every user, with the exact verdict
`{authorized: true, reason: 'public_checklist'}`; the statement quantifies
over every store holding such a checklist record, so the verdict is the
same for every state of the share table, including when no share row
exists. -/
theorem C1_public_read_subscribe (s : Store) (cid uid : String) (c : Checklist)
    (hc : s.checklists cid = some c) (hp : c.isPublic = true) :
    checkChecklistAccess s cid uid .read = .ok ⟨true, "public_checklist", none⟩ ∧
    checkChecklistAccess s cid uid .subscribe = .ok ⟨true, "public_checklist", none⟩ := by
  constructor <;> simp [checkChecklistAccess, hc, hp]

/-- Witness for C1 on a concrete public checklist and a stranger user. -/
theorem C1_public_read_subscribe_witness :
    checkChecklistAccess storePub "c1" "bob" .read = .ok ⟨true, "public_checklist", none⟩ ∧
    checkChecklistAccess storePub "c1" "bob" .subscribe = .ok ⟨true, "public_checklist", none⟩ :=
  C1_public_read_subscribe storePub "c1" "bob" ⟨"alice", true⟩ rfl rfl

/-- Claim C2: for every existing checklist, the author is resolved to role
OWNER without consulting the share table (the statement quantifies over
every store with that checklist record), and a delete request by the author
is authorized with role OWNER. -/
theorem C2_author_delete_owner (s : Store) (cid uid : String) (c : Checklist)
    (hc : s.checklists cid = some c) (ha : c.author = uid) :
    checkChecklistAccess s cid uid .delete = .ok ⟨true, "authorized", some .OWNER⟩ := by
  simp [checkChecklistAccess, hc, resolveRawRole, ha, jsStr, parseRole, ROLE_PERMISSIONS]

/-- Witness for C2: the author deleting a concrete private checklist with a
non-empty share table. -/
theorem C2_author_delete_owner_witness :
    checkChecklistAccess storePriv "c1" "alice" .delete = .ok ⟨true, "authorized", some .OWNER⟩ :=
  C2_author_delete_owner storePriv "c1" "alice" ⟨"alice", false⟩ rfl rfl

/-- Whether an evaluation of checkChecklistAccess (which may fault) came
back authorized. -/
def isAuthorizedE : Except String AccessResult → Bool
  | .ok r => r.authorized
  | .error _ => false

/-- Claim C3: a non-author user holding a VIEWER share is denied update,
delete and share (update/delete with reason permission_denied and role
VIEWER, share via the owner gate), and is allowed read and subscribe
(through the public branch or through the VIEWER permission set). -/
theorem C3_viewer_share (s : Store) (cid uid : String) (c : Checklist)
    (hc : s.checklists cid = some c) (ha : c.author ≠ uid)
    (hv : s.shareRole cid uid = some "VIEWER") :
    checkChecklistAccess s cid uid .update = .ok ⟨false, "permission_denied", some .VIEWER⟩ ∧
    checkChecklistAccess s cid uid .delete = .ok ⟨false, "permission_denied", some .VIEWER⟩ ∧
    checkChecklistAccess s cid uid .share = .ok ⟨false, "share_requires_owner", none⟩ ∧
    isAuthorizedE (checkChecklistAccess s cid uid .read) = true ∧
    isAuthorizedE (checkChecklistAccess s cid uid .subscribe) = true := by
  have hb : (c.author == uid) = false := by
    simpa using ha
  refine ⟨?_, ?_, ?_, ?_, ?_⟩ <;>
    cases hp : c.isPublic <;>
      simp [checkChecklistAccess, hc, hp, resolveRawRole, hb, hv, jsStr, parseRole,
        ROLE_PERMISSIONS, isAuthorizedE]

/-- Witness for C3 on the concrete VIEWER share (c1, bob). -/
theorem C3_viewer_share_witness :
    checkChecklistAccess storePriv "c1" "bob" .update = .ok ⟨false, "permission_denied", some .VIEWER⟩ ∧
    checkChecklistAccess storePriv "c1" "bob" .delete = .ok ⟨false, "permission_denied", some .VIEWER⟩ ∧
    checkChecklistAccess storePriv "c1" "bob" .share = .ok ⟨false, "share_requires_owner", none⟩ ∧
    isAuthorizedE (checkChecklistAccess storePriv "c1" "bob" .read) = true ∧
    isAuthorizedE (checkChecklistAccess storePriv "c1" "bob" .subscribe) = true :=
  C3_viewer_share storePriv "c1" "bob" ⟨"alice", false⟩ rfl (by decide) rfl

/-- Claim C4: when the requested permission is share and the caller is not
the author but holds a share row whose raw role value is truthy and not
"OWNER" (in particular EDITOR or VIEWER), the verdict is the deny
`share_requires_owner`. The raw value is quantified over every such string,
including values outside the role enum for which the subsequent
ROLE_PERMISSIONS lookup would fault, so the gate fires before and
independently of the role-permission table lookup. -/
theorem C4_share_gate (s : Store) (cid uid : String) (c : Checklist) (raw : String)
    (hc : s.checklists cid = some c) (ha : c.author ≠ uid)
    (hs : s.shareRole cid uid = some raw)
    (hne : raw ≠ "") (hno : raw ≠ "OWNER") :
    checkChecklistAccess s cid uid .share = .ok ⟨false, "share_requires_owner", none⟩ := by
  have hb : (c.author == uid) = false := by
    simpa using ha
  simp [checkChecklistAccess, hc, resolveRawRole, hb, hs, jsStr, hne, hno]

/-- Witness for C4 on the concrete EDITOR share (c1, carol). -/
theorem C4_share_gate_witness :
    checkChecklistAccess storePriv "c1" "carol" .share = .ok ⟨false, "share_requires_owner", none⟩ :=
  C4_share_gate storePriv "c1" "carol" ⟨"alice", false⟩ "EDITOR" rfl (by decide) rfl
    (by decide) (by decide)

/-- Claim C5: a createChecklistShare request whose input.userId equals the
caller's id is allowed (reason create_own_share) for every store, every
input.checklistId and every input.role — the statement quantifies over the
whole store and all other variables, so no checklist lookup, share lookup
or validation of token, expiry or granted role can influence the verdict;
the full handler returns isAuthorized = true for such a request. -/
theorem C5_create_own_share (s : Store) (uid : String) (v : Variables) (p : JWTPayload)
    (hu : jwtUserId p = some uid) (hv : v.inputUserId = some uid) :
    handlerTry true s uid "createChecklistShare" v = .ok ⟨true, "create_own_share"⟩ ∧
    handler (some p) true s (some "createChecklistShare") v = true := by
  have h1 : handlerTry true s uid "createChecklistShare" v = .ok ⟨true, "create_own_share"⟩ := by
    simp +decide [handlerTry, hv]
  exact ⟨h1, by simp [handler, hu, h1]⟩

/-- Witness for C5: a stranger grants themselves an OWNER share on someone
else's private checklist. -/
theorem C5_create_own_share_witness :
    handlerTry true storePriv "eve" "createChecklistShare"
      { inputUserId := some "eve", inputChecklistId := some "c1", inputRole := some "OWNER" }
      = .ok ⟨true, "create_own_share"⟩ ∧
    handler (some { sub := some "eve" }) true storePriv (some "createChecklistShare")
      { inputUserId := some "eve", inputChecklistId := some "c1", inputRole := some "OWNER" }
      = true :=
  C5_create_own_share storePriv "eve"
    { inputUserId := some "eve", inputChecklistId := some "c1", inputRole := some "OWNER" }
    { sub := some "eve" } rfl rfl

/-- Claim C6: updateChecklistItem and deleteChecklistItem resolve item id to
section id and then section id to checklist id, in that order: a missing
item denies with reason item_not_found (whatever the section table holds), a
found item whose section lookup misses denies with reason section_not_found,
and when both hops resolve the branch delegates to checkChecklistAccess with
permission update respectively delete. -/
theorem C6_item_two_hop (s : Store) (uid itemId : String) (v : Variables)
    (hv : v.inputId = some itemId) (hne : itemId ≠ "") :
    (jsStr (s.itemSectionId itemId) = none →
      handlerTry true s uid "updateChecklistItem" v = .ok ⟨false, "item_not_found"⟩ ∧
      handlerTry true s uid "deleteChecklistItem" v = .ok ⟨false, "item_not_found"⟩) ∧
    (∀ sectionId, jsStr (s.itemSectionId itemId) = some sectionId →
      jsStr (s.sectionChecklistId sectionId) = none →
      handlerTry true s uid "updateChecklistItem" v = .ok ⟨false, "section_not_found"⟩ ∧
      handlerTry true s uid "deleteChecklistItem" v = .ok ⟨false, "section_not_found"⟩) ∧
    (∀ sectionId checklistId, jsStr (s.itemSectionId itemId) = some sectionId →
      jsStr (s.sectionChecklistId sectionId) = some checklistId →
      handlerTry true s uid "updateChecklistItem" v
        = delegate (checkChecklistAccess s checklistId uid .update) ∧
      handlerTry true s uid "deleteChecklistItem" v
        = delegate (checkChecklistAccess s checklistId uid .delete)) := by
  have hv2 : jsStr v.inputId = some itemId := by
    simp [hv, jsStr, hne]
  refine ⟨fun hitem => ?_, fun sectionId hitem hsec => ?_,
    fun sectionId checklistId hitem hsec => ?_⟩
  · exact ⟨by simp +decide [handlerTry, hv2, hitem], by simp +decide [handlerTry, hv2, hitem]⟩
  · exact ⟨by simp +decide [handlerTry, hv2, hitem, hsec],
      by simp +decide [handlerTry, hv2, hitem, hsec]⟩
  · exact ⟨by simp +decide [handlerTry, hv2, hitem, hsec],
      by simp +decide [handlerTry, hv2, hitem, hsec]⟩

/-- Witness for C6: with an empty store, the item hop misses first and the
deny reason is item_not_found. -/
theorem C6_item_two_hop_witness :
    handlerTry true emptyStore "bob" "updateChecklistItem" { inputId := some "i1" }
      = .ok ⟨false, "item_not_found"⟩ ∧
    handlerTry true emptyStore "bob" "deleteChecklistItem" { inputId := some "i1" }
      = .ok ⟨false, "item_not_found"⟩ :=
  (C6_item_two_hop emptyStore "bob" "i1" { inputId := some "i1" } rfl (by decide)).1 rfl

/-- Claim C7 as stated is false: the deny reason for a nonexistent checklist
is the string "checklist_not_found", not "not_found". Concrete refutation on
the empty store. -/
theorem C7_not_found_counterexample :
    checkChecklistAccess emptyStore "c1" "u1" .read = .ok ⟨false, "checklist_not_found", none⟩ ∧
    "checklist_not_found" ≠ "not_found" := by
  exact ⟨rfl, by decide⟩

/-- Claim C7 amended: for every user id and every permission, a checklist id
with no checklist record yields the deny `{authorized: false, reason:
'checklist_not_found'}`. -/
theorem C7_checklist_not_found (s : Store) (cid uid : String) (p : Permission)
    (hc : s.checklists cid = none) :
    checkChecklistAccess s cid uid p = .ok ⟨false, "checklist_not_found", none⟩ := by
  simp [checkChecklistAccess, hc]

/-- Witness for the amended C7 on the empty store with permission delete. -/
theorem C7_checklist_not_found_witness :
    checkChecklistAccess emptyStore "nope" "u2" .delete = .ok ⟨false, "checklist_not_found", none⟩ :=
  C7_checklist_not_found emptyStore "nope" "u2" .delete rfl

/-- Claim C8 as stated is false: when table discovery fails, the error
thrown by getTableNames does not surface past the authorizer; the handler's
top-level catch converts it into the deny verdict isAuthorized = false.
Concrete refutation: a valid caller issuing getChecklist with tables
undiscoverable gets a plain deny, even though the try body raised the
error. -/
theorem C8_resolution_error_counterexample :
    handlerTry false emptyStore "alice" "getChecklist" { id := some "c1" }
      = .error "Checklist tables not found" ∧
    handler (some { sub := some "alice" }) false emptyStore (some "getChecklist")
      { id := some "c1" } = false := by
  exact ⟨rfl, rfl⟩

/-- Claim C8 amended: when the four collections cannot be discovered,
evaluation of every named operation throws the fatal error
`Error('Checklist tables not found')` inside the try body, and the
handler's catch-all converts that failure into isAuthorized = false (a
reasonless deny) rather than surfacing it to the caller. -/
theorem C8_resolution_error_denied (s : Store) (uid f : String) (v : Variables)
    (p : JWTPayload) (hu : jwtUserId p = some uid) :
    handlerTry false s uid f v = .error "Checklist tables not found" ∧
    handler (some p) false s (some f) v = false := by
  refine ⟨rfl, ?_⟩
  simp only [handler, hu]
  rfl

/-- Witness for the amended C8 on a concrete request. -/
theorem C8_resolution_error_denied_witness :
    handlerTry false storePriv "bob" "createChecklist" { } = .error "Checklist tables not found" ∧
    handler (some { username := some "bob" }) false storePriv (some "createChecklist") { } = false :=
  C8_resolution_error_denied storePriv "bob" "createChecklist" { } { username := some "bob" } rfl

/-- Claim C9 is the spec's intent, but the code faults instead of cleanly
denying: a share row whose role attribute is the truthy non-enum string
"ADMIN" passes the `if (!role)` guard, and for a non-share permission the
lookup `ROLE_PERMISSIONS[role]` is undefined, so `.includes` throws a
TypeError; checkChecklistAccess does not return the no_role deny. The
handler's top-level catch then turns the exception into a blanket
isAuthorized = false. Evaluation at the failing input. -/
theorem C9_invalid_role_faults :
    checkChecklistAccess storeBadRole "c1" "mallory" .read
      = .error "TypeError: ROLE_PERMISSIONS[role] is undefined" ∧
    checkChecklistAccess storeBadRole "c1" "mallory" .share
      = .ok ⟨false, "share_requires_owner", none⟩ ∧
    handler (some { sub := some "mallory" }) true storeBadRole (some "getChecklist")
      { id := some "c1" } = false := by
  exact ⟨rfl, rfl, rfl⟩

/-- Claim C10 as stated is false at two boundaries: a decodable credential
carrying no user identifier (no cognito:username, username or sub) is
denied before the subscription branch is reached, and when table discovery
fails the catch-all denies subscription operations too. -/
theorem C10_subscription_counterexample :
    handler (some { }) true emptyStore (some "onCreateChecklist") { } = false ∧
    handler (some { sub := some "alice" }) false emptyStore (some "onCreateChecklist") { } = false := by
  exact ⟨rfl, rfl⟩

/-- Claim C10 amended: for every request whose decoded credential yields a
truthy user id and whose root field name starts with onCreate, onUpdate or
onDelete, the handler (with the collections discoverable) returns
isAuthorized = true, for every store and every set of arguments. -/
theorem C10_subscription_allow (p : JWTPayload) (uid : String) (s : Store)
    (f : String) (v : Variables) (hu : jwtUserId p = some uid)
    (hf : strStartsWith f "onCreate" = true ∨ strStartsWith f "onUpdate" = true
      ∨ strStartsWith f "onDelete" = true) :
    handler (some p) true s (some f) v = true := by
  have h1 : handlerTry true s uid f v = .ok ⟨true, "subscription"⟩ := by
    rcases hf with hf | hf | hf <;> simp [handlerTry, hf]
  simp [handler, hu, h1]

/-- Witness for the amended C10 on a concrete subscription operation. -/
theorem C10_subscription_allow_witness :
    handler (some { sub := some "alice" }) true emptyStore (some "onUpdateChecklistItem") { } = true :=
  C10_subscription_allow { sub := some "alice" } "alice" emptyStore
    "onUpdateChecklistItem" { } rfl (by right; left; decide)

end JustChecklists
